import Mathlib

/-
  Verification of the OpenAI API proxy worker (src/index.js).

  The worker is embedded shallowly:
  - JS `Headers` objects become association lists of (name, value) pairs with
    case-insensitive `get`/`set` (`hget`/`hset`).
  - Plain JS objects used as string maps become association lists with
    case-sensitive keys (`objSet`, `objMerge` for spread `\x7b...a, ...b\x7d`).
  - `URLSearchParams` becomes an ordered multi-map, and `URLSearchParams.set`
    (replace the first occurrence in place, delete the rest, else append)
    becomes `setParam`.
  - The Cloudflare KV binding is a parameter `kvFetch` returning
    `Except String (Option IdempotencyRecord)`: `.ok none` is a miss,
    `.ok (some rec)` a hit, `.error e` a thrown read failure (the source has
    no try/catch on the read path, so the error propagates).
  - The outbound `fetch` is a parameter `transport`; `.error msg` models a
    rejected promise caught at line 44 of the source.
  - KV side effects are returned as an explicit list of `KVOp` operations.
-/

namespace Proxy

/-- Upstream host constant (`OPENAI_API_URL` in the source). -/
def OPENAI_API_URL : String := "https://api.openai.com"

/-- Idempotency cache TTL in seconds (`IDEMPOTENCY_EXPIRATION = 24 * 60 * 60`). -/
def IDEMPOTENCY_EXPIRATION : Nat := 24 * 60 * 60

/-- ASCII lowercase of one character, as HTTP header-name comparison uses. -/
def lowerChar (c : Char) : Char :=
  if 65 ≤ c.toNat ∧ c.toNat ≤ 90 then Char.ofNat (c.toNat + 32) else c

/-- ASCII lowercase of a string (header names are ASCII). -/
def lowerStr (s : String) : String := ⟨s.data.map lowerChar⟩

/-- Fetch `Headers.get`: value of the first case-insensitive name match, else none. -/
def hget : List (String × String) → String → Option String
  | [], _ => none
  | (k₁, v) :: rest, k => if lowerStr k₁ = lowerStr k then some v else hget rest k

/-- Fetch `Headers.set`: replace the first case-insensitive name match in place,
else append the pair at the end. -/
def hset : List (String × String) → String → String → List (String × String)
  | [], k, v => [(k, v)]
  | (k₁, v₁) :: rest, k, v =>
      if lowerStr k₁ = lowerStr k then (k, v) :: rest else (k₁, v₁) :: hset rest k v

/-- JS object property write `o[k] = v` on a string-keyed object modelled as an
association list with unique, case-sensitive keys: update in place or append. -/
def objSet : List (String × String) → String → String → List (String × String)
  | [], k, v => [(k, v)]
  | (k₁, v₁) :: rest, k, v =>
      if k₁ = k then (k, v) :: rest else (k₁, v₁) :: objSet rest k v

/-- JS object spread merge of two objects: insert all entries of `a`, then all
entries of `b`, into a fresh object (later keys override, position kept). -/
def objMerge (a b : List (String × String)) : List (String × String) :=
  b.foldl (fun acc p => objSet acc p.1 p.2) (a.foldl (fun acc p => objSet acc p.1 p.2) [])

/-- `URLSearchParams.set`: if the name exists, give its first occurrence the new
value and delete the other occurrences; otherwise append the pair. -/
def setParam : List (String × String) → String → String → List (String × String)
  | [], k, v => [(k, v)]
  | (k₁, v₁) :: rest, k, v =>
      if k₁ = k then (k, v) :: rest.filter (fun p => decide (p.1 ≠ k))
      else (k₁, v₁) :: setParam rest k v

/-- Source lines 29-31: copy each (name, value) pair of the inbound URL's query
onto the fresh upstream URL via `searchParams.set`, in order. -/
def forwardQuery (q : List (String × String)) : List (String × String) :=
  q.foldl (fun acc p => setParam acc p.1 p.2) []

/-- An inbound request: method, full serialized URL (`request.url`), the parsed
pathname and ordered query multi-map of that URL, header set, body. -/
structure ProxyRequest where
  method : String
  url : String
  pathname : String
  query : List (String × String)
  headers : List (String × String)
  body : String
deriving DecidableEq

/-- An HTTP response: status, status text, header set, body. -/
structure ProxyResponse where
  status : Nat
  statusText : String
  headers : List (String × String)
  body : String
deriving DecidableEq

/-- The JSON value stored in KV by `storeIdempotentResponse` (source lines
118-123): body text, status, statusText, header mapping. -/
structure IdempotencyRecord where
  body : String
  status : Nat
  statusText : String
  headers : List (String × String)
deriving DecidableEq

/-- The outbound upstream request built by `handleRequest`: method, path below
the upstream host, query, headers, body. -/
structure OutboundRequest where
  method : String
  path : String
  query : List (String × String)
  headers : List (String × String)
  body : String
deriving DecidableEq

/-- A KV-store side effect performed by the worker. -/
inductive KVOp where
  | get : String → KVOp
  | put : String → IdempotencyRecord → KVOp
deriving DecidableEq

/-- JSON escaping of one character as `JSON.stringify` does for quote and
backslash (the only special characters appearing in the modelled messages). -/
def jsonEscapeChar (c : Char) : String :=
  if c = '"' ∨ c = '\\' then String.singleton '\\' ++ String.singleton c
  else String.singleton c

/-- `JSON.stringify` of a string value. -/
def jsonStringify (s : String) : String :=
  "\"" ++ String.join (s.data.map jsonEscapeChar) ++ "\""

/-- `JSON.stringify(\x7b error: msg \x7d)`: the local error envelope body. -/
def errorBody (msg : String) : String :=
  "\x7b\"error\":" ++ jsonStringify msg ++ "\x7d"

/-- The synthesized response of `handleRequest`'s catch branch (lines 46-51):
status 500, Content-Type application/json, error envelope body. -/
def transportErrorResponse (msg : String) : ProxyResponse :=
  { status := 500
  , statusText := ""
  , headers := [("Content-Type", "application/json")]
  , body := errorBody msg }

/-- The response returned when the credential is missing or empty
(lines 137-142). -/
def configErrorResponse : ProxyResponse :=
  { status := 500
  , statusText := ""
  , headers := [("Content-Type", "application/json")]
  , body := errorBody "OPENAI_API_KEY environment variable is not set" }

/-- The default CORS header object of `addCORSHeaders` (lines 191-195). -/
def defaultCorsHeaders : List (String × String) :=
  [ ("Access-Control-Allow-Origin", "*")
  , ("Access-Control-Allow-Methods", "GET, POST, PUT, DELETE, OPTIONS, PATCH")
  , ("Access-Control-Allow-Headers", "Content-Type, Authorization, Idempotency-Key") ]

/-- The CORS header object the dispatcher builds and passes to
`addCORSHeaders` (lines 151-156); it adds `Access-Control-Max-Age`. -/
def dispatcherCorsHeaders : List (String × String) :=
  [ ("Access-Control-Allow-Origin", "*")
  , ("Access-Control-Allow-Methods", "GET, POST, PUT, DELETE, OPTIONS, PATCH")
  , ("Access-Control-Allow-Headers", "Content-Type, Authorization, Idempotency-Key")
  , ("Access-Control-Max-Age", "86400") ]

/-- The preflight response of `handleCORS` (lines 177-187): 204, empty body. -/
def preflightResponse : ProxyResponse :=
  { status := 204
  , statusText := ""
  , headers :=
      [ ("Access-Control-Allow-Origin", "*")
      , ("Access-Control-Allow-Methods", "GET, POST, PUT, DELETE, OPTIONS, PATCH")
      , ("Access-Control-Allow-Headers", "Content-Type, Authorization, Idempotency-Key")
      , ("Access-Control-Max-Age", "86400") ]
  , body := "" }

/-- `addCORSHeaders(response, corsHeaders)` (lines 190-209): spread-merge the
default CORS object with the argument object, then `Headers.set` each entry
onto a copy of the response's headers; status, statusText, body unchanged. -/
def addCORSHeaders (resp : ProxyResponse) (corsHeaders : List (String × String)) :
    ProxyResponse :=
  { status := resp.status
  , statusText := resp.statusText
  , headers :=
      (objMerge defaultCorsHeaders corsHeaders).foldl
        (fun acc p => hset acc p.1 p.2) resp.headers
  , body := resp.body }

/-- The mutating methods gating the idempotency cache (lines 63 and 96). -/
def nonIdempotentMethods : List String := ["POST", "PUT", "PATCH", "DELETE"]

/-- The KV cache key, built identically at lines 75 and 127:
method, full request URL and idempotency key joined with `:`. -/
def cacheKey (req : ProxyRequest) (idempotencyKey : String) : String :=
  req.method ++ ":" ++ req.url ++ ":" ++ idempotencyKey

/-- Serialization of a response into the stored KV value (lines 107-123). -/
def serializeResponse (r : ProxyResponse) : IdempotencyRecord :=
  { body := r.body, status := r.status, statusText := r.statusText, headers := r.headers }

/-- Deserialization of a stored record back into a response (lines 78-82). -/
def deserializeRecord (rec : IdempotencyRecord) : ProxyResponse :=
  { status := rec.status, statusText := rec.statusText, headers := rec.headers, body := rec.body }

/-- `checkIdempotency(request, env)` (lines 61-86). Returns the lookup outcome
(`.error` when the uncaught KV read rejects) together with the KV operations
performed. -/
def checkIdempotency (req : ProxyRequest)
    (kvFetch : String → Except String (Option IdempotencyRecord)) :
    Except String (Option ProxyResponse) × List KVOp :=
  if req.method ∈ nonIdempotentMethods then
    match hget req.headers "Idempotency-Key" with
    | none => (.ok none, [])
    | some idempotencyKey =>
      if idempotencyKey = "" then (.ok none, [])
      else
        match kvFetch (cacheKey req idempotencyKey) with
        | .error e => (.error e, [KVOp.get (cacheKey req idempotencyKey)])
        | .ok (some rec) =>
            (.ok (some (deserializeRecord rec)), [KVOp.get (cacheKey req idempotencyKey)])
        | .ok none => (.ok none, [KVOp.get (cacheKey req idempotencyKey)])
  else (.ok none, [])

/-- `storeIdempotentResponse(request, response, env)` (lines 94-131), as the
list of KV writes it performs. -/
def storeIdempotentResponse (req : ProxyRequest) (response : ProxyResponse) :
    List KVOp :=
  if req.method ∈ nonIdempotentMethods then
    match hget req.headers "Idempotency-Key" with
    | none => []
    | some idempotencyKey =>
      if idempotencyKey = "" then []
      else [KVOp.put (cacheKey req idempotencyKey) (serializeResponse response)]
  else []

/-- The outbound upstream request built at lines 14-34: upstream URL from the
original pathname, original query re-applied via `searchParams.set`, original
headers with `Authorization` overwritten by `Bearer <key>`, body unchanged. -/
def buildUpstreamRequest (req : ProxyRequest) (apiKey : String) : OutboundRequest :=
  { method := req.method
  , path := req.pathname
  , query := forwardQuery req.query
  , headers := hset req.headers "Authorization" ("Bearer " ++ apiKey)
  , body := req.body }

/-- The serialized outbound URL up to the query string: upstream host plus the
original pathname (`new URL(path, OPENAI_API_URL)` at line 20). -/
def outboundUrlBase (o : OutboundRequest) : String := OPENAI_API_URL ++ o.path

/-- `handleRequest(request, env)` (lines 12-53): forward the rebuilt request;
on transport success return the upstream response unchanged, on transport
failure synthesize the 500 JSON error response. -/
def handleRequest (req : ProxyRequest) (apiKey : String)
    (transport : OutboundRequest → Except String ProxyResponse) : ProxyResponse :=
  match transport (buildUpstreamRequest req apiKey) with
  | .ok r => r
  | .error msg => transportErrorResponse msg

/-- The exported `fetch` dispatcher (lines 133-174). `apiKeyEnv` is
`env.OPENAI_API_KEY` (absent or a string); the falsiness test at line 136
rejects both `none` and the empty string. Returns the outcome (`.error` when
an uncaught exception escapes, as with a KV read rejection) and the list of
KV operations performed on the request path and by the background store. -/
def workerFetch (req : ProxyRequest) (apiKeyEnv : Option String)
    (kvFetch : String → Except String (Option IdempotencyRecord))
    (transport : OutboundRequest → Except String ProxyResponse) :
    Except String ProxyResponse × List KVOp :=
  match apiKeyEnv with
  | none => (.ok configErrorResponse, [])
  | some apiKey =>
    if apiKey = "" then (.ok configErrorResponse, [])
    else if req.method = "OPTIONS" then (.ok preflightResponse, [])
    else
      match checkIdempotency req kvFetch with
      | (.error e, ops) => (.error e, ops)
      | (.ok (some cached), ops) =>
          (.ok (addCORSHeaders cached dispatcherCorsHeaders), ops)
      | (.ok none, ops) =>
          let response := handleRequest req apiKey transport
          (.ok (addCORSHeaders response dispatcherCorsHeaders),
            ops ++ storeIdempotentResponse req response)

/-- A concrete mutating request carrying an idempotency key, used as a test
vector by witnesses and counterexamples. -/
def wReq : ProxyRequest :=
  { method := "POST"
  , url := "https://proxy.example/v1/chat/completions"
  , pathname := "/v1/chat/completions"
  , query := []
  , headers := [("Content-Type", "application/json"), ("Idempotency-Key", "req-123")]
  , body := "\x7b\"model\":\"gpt-4\"\x7d" }

/-- A concrete upstream response used as a test vector. -/
def wResp : ProxyResponse :=
  { status := 201
  , statusText := "Created"
  , headers := [("content-type", "application/json"), ("x-request-id", "abc")]
  , body := "\x7b\"id\":\"cmpl-1\"\x7d" }

/-- A KV oracle holding exactly the serialized `wResp` under `wReq`'s key. -/
def wKv : String → Except String (Option IdempotencyRecord) :=
  fun s => if s = cacheKey wReq "req-123" then .ok (some (serializeResponse wResp)) else .ok none

/-- A concrete non-mutating request used as a test vector. -/
def wGetReq : ProxyRequest :=
  { method := "GET"
  , url := "https://proxy.example/v1/models"
  , pathname := "/v1/models"
  , query := []
  , headers := [("Idempotency-Key", "req-123")]
  , body := "" }

/-- A concrete request with a duplicate-free query string, used as a test
vector. -/
def wQueryReq : ProxyRequest :=
  { method := "GET"
  , url := "https://proxy.example/v1/chat/completions?model=gpt-4&stream=true"
  , pathname := "/v1/chat/completions"
  , query := [("model", "gpt-4"), ("stream", "true")]
  , headers := []
  , body := "" }

/-- A concrete request that already carries a client Authorization header,
used as a test vector for credential injection. -/
def wAuthReq : ProxyRequest :=
  { method := "POST"
  , url := "https://proxy.example/v1/embeddings"
  , pathname := "/v1/embeddings"
  , query := []
  , headers := [("Authorization", "Bearer client-key"), ("Accept", "text/event-stream")]
  , body := "\x7b\"input\":\"hi\"\x7d" }

/-- Header lookup after a header write: the written name reads back the new
value, every other name is unaffected. -/
theorem hget_hset (h : List (String × String)) (k v k₁ : String) :
    hget (hset h k v) k₁ = if lowerStr k₁ = lowerStr k then some v else hget h k₁ := by
  induction h with
  | nil =>
    simp only [hset, hget]
    by_cases hc : lowerStr k = lowerStr k₁
    · rw [if_pos hc, if_pos hc.symm]
    · rw [if_neg hc, if_neg (fun h2 => hc h2.symm)]
  | cons p t ih =>
    obtain ⟨k₂, v₂⟩ := p
    simp only [hset]
    by_cases h2 : lowerStr k₂ = lowerStr k
    · rw [if_pos h2]
      simp only [hget]
      by_cases h1 : lowerStr k₁ = lowerStr k
      · rw [if_pos h1.symm, if_pos h1]
      · rw [if_neg (fun he => h1 he.symm), if_neg h1,
          if_neg (fun he => h1 (h2.symm.trans he).symm)]
    · rw [if_neg h2]
      simp only [hget]
      by_cases h3 : lowerStr k₂ = lowerStr k₁
      · rw [if_pos h3, if_neg (fun h1 => h2 (h3.trans h1)), if_pos h3]
      · rw [if_neg h3, ih, if_neg h3]

/-- String concatenation is left-cancellative. -/
theorem string_append_left_cancel (a b c : String) (h : a ++ b = a ++ c) : b = c := by
  obtain ⟨da⟩ := a
  obtain ⟨db⟩ := b
  obtain ⟨dc⟩ := c
  have hd : da ++ db = da ++ dc := congrArg String.data h
  have hbc : db = dc := List.append_cancel_left hd
  rw [hbc]

/-- `URLSearchParams.set` on an absent name is a plain append. -/
theorem setParam_not_mem (l : List (String × String)) (k v : String)
    (h : k ∉ l.map Prod.fst) : setParam l k v = l ++ [(k, v)] := by
  induction l with
  | nil => simp [setParam]
  | cons p t ih =>
    obtain ⟨k₁, v₁⟩ := p
    simp only [List.map_cons, List.mem_cons] at h
    push_neg at h
    simp only [setParam]
    rw [if_neg (fun he => h.1 he.symm), ih h.2]
    simp

/-- Folding `searchParams.set` over pairwise-distinct names appends them all. -/
theorem foldl_setParam_nodup (q : List (String × String)) :
    ∀ acc : List (String × String), ((acc ++ q).map Prod.fst).Nodup →
    q.foldl (fun acc p => setParam acc p.1 p.2) acc = acc ++ q := by
  induction q with
  | nil => intro acc h; simp
  | cons p rest ih =>
    intro acc h
    obtain ⟨k, v⟩ := p
    have hk : k ∉ acc.map Prod.fst := by
      rw [List.map_append, List.map_cons] at h
      have hd := (List.nodup_append.mp h).2.2
      intro hmem
      exact hd hmem (by simp)
    rw [List.foldl_cons, setParam_not_mem acc k v hk]
    have hassoc : (acc ++ [(k, v)]) ++ rest = acc ++ ((k, v) :: rest) := by simp
    rw [ih (acc ++ [(k, v)]) (by rw [hassoc]; exact h)]
    simp

/-- The query-forwarding loop is the identity on queries without repeated
parameter names. -/
theorem forwardQuery_nodup (q : List (String × String))
    (h : (q.map Prod.fst).Nodup) : forwardQuery q = q := by
  have := foldl_setParam_nodup q [] (by simpa using h)
  simpa [forwardQuery] using this

/-- Lookup on a cache hit: deserializes the stored record and logs one read. -/
theorem checkIdempotency_hit (req : ProxyRequest)
    (kvFetch : String → Except String (Option IdempotencyRecord))
    (k : String) (rec : IdempotencyRecord)
    (hm : req.method ∈ nonIdempotentMethods)
    (hk : hget req.headers "Idempotency-Key" = some k) (hne : k ≠ "")
    (hkv : kvFetch (cacheKey req k) = .ok (some rec)) :
    checkIdempotency req kvFetch =
      (.ok (some (deserializeRecord rec)), [KVOp.get (cacheKey req k)]) := by
  unfold checkIdempotency
  rw [if_pos hm, hk]
  simp only
  rw [if_neg hne, hkv]

/-- Lookup when the method is non-mutating or the key header is falsy:
returns a miss and performs no KV operation. -/
theorem checkIdempotency_skip (req : ProxyRequest)
    (kvFetch : String → Except String (Option IdempotencyRecord))
    (h : req.method ∉ nonIdempotentMethods ∨
         hget req.headers "Idempotency-Key" = none ∨
         hget req.headers "Idempotency-Key" = some "") :
    checkIdempotency req kvFetch = (.ok none, []) := by
  unfold checkIdempotency
  rcases h with h | h | h
  · rw [if_neg h]
  · by_cases hm : req.method ∈ nonIdempotentMethods
    · rw [if_pos hm, h]
    · rw [if_neg hm]
  · by_cases hm : req.method ∈ nonIdempotentMethods
    · rw [if_pos hm, h]
      simp
    · rw [if_neg hm]

/-- Store when the method is non-mutating or the key header is falsy:
writes nothing. -/
theorem storeIdempotentResponse_skip (req : ProxyRequest) (resp : ProxyResponse)
    (h : req.method ∉ nonIdempotentMethods ∨
         hget req.headers "Idempotency-Key" = none ∨
         hget req.headers "Idempotency-Key" = some "") :
    storeIdempotentResponse req resp = [] := by
  unfold storeIdempotentResponse
  rcases h with h | h | h
  · rw [if_neg h]
  · by_cases hm : req.method ∈ nonIdempotentMethods
    · rw [if_pos hm, h]
    · rw [if_neg hm]
  · by_cases hm : req.method ∈ nonIdempotentMethods
    · rw [if_pos hm, h]
      simp
    · rw [if_neg hm]

/-- A mutating method is never the string `OPTIONS`. -/
theorem mutating_ne_options (m : String) (hm : m ∈ nonIdempotentMethods) :
    m ≠ "OPTIONS" := by
  intro he
  rw [he] at hm
  simp [nonIdempotentMethods] at hm

/-- C1: for a mutating request with a non-empty idempotency key whose cache
key maps to the serialization of a previously stored response `r`, the
dispatcher replays exactly `r` — same status, status text, headers and body,
modulo the CORS decoration, which leaves status, status text and body
untouched — independent of the request body and of the transport; and
deserializing a serialized response yields the same response. -/
theorem replay_returns_stored_response (req : ProxyRequest) (apiKey k : String)
    (r : ProxyResponse)
    (kvFetch : String → Except String (Option IdempotencyRecord))
    (transport : OutboundRequest → Except String ProxyResponse)
    (hm : req.method ∈ nonIdempotentMethods)
    (hk : hget req.headers "Idempotency-Key" = some k)
    (hne : k ≠ "") (ha : apiKey ≠ "")
    (hkv : kvFetch (cacheKey req k) = .ok (some (serializeResponse r))) :
    workerFetch req (some apiKey) kvFetch transport =
      (.ok (addCORSHeaders r dispatcherCorsHeaders), [KVOp.get (cacheKey req k)]) ∧
    deserializeRecord (serializeResponse r) = r ∧
    (addCORSHeaders r dispatcherCorsHeaders).status = r.status ∧
    (addCORSHeaders r dispatcherCorsHeaders).statusText = r.statusText ∧
    (addCORSHeaders r dispatcherCorsHeaders).body = r.body := by
  have hc := checkIdempotency_hit req kvFetch k (serializeResponse r) hm hk hne hkv
  have hopts := mutating_ne_options req.method hm
  refine ⟨?_, rfl, rfl, rfl, rfl⟩
  simp only [workerFetch]
  rw [if_neg ha, if_neg hopts, hc]
  rfl

/-- Witness for C1 at a concrete request, key, and stored response. -/
theorem replay_returns_stored_response_witness :
    workerFetch wReq (some "sk") wKv (fun _ => Except.error "down") =
      (.ok (addCORSHeaders wResp dispatcherCorsHeaders), [KVOp.get (cacheKey wReq "req-123")]) ∧
    deserializeRecord (serializeResponse wResp) = wResp ∧
    (addCORSHeaders wResp dispatcherCorsHeaders).status = wResp.status ∧
    (addCORSHeaders wResp dispatcherCorsHeaders).statusText = wResp.statusText ∧
    (addCORSHeaders wResp dispatcherCorsHeaders).body = wResp.body :=
  replay_returns_stored_response wReq "sk" "req-123" wResp wKv
    (fun _ => Except.error "down") (by decide) rfl (by decide) (by decide) rfl

/-- C2 counterexample: the cache-key function is not injective. Two requests
with the same method but different URLs, paired with different idempotency
keys, produce the identical cache key, because the three components are joined
with `:` and both URLs and opaque keys may contain `:`. -/
theorem cacheKey_collision_cx :
    cacheKey
        { method := "POST", url := "https://proxy.example/v1/x", pathname := "/v1/x"
        , query := [], headers := [], body := "" } "a:b" =
      cacheKey
        { method := "POST", url := "https://proxy.example/v1/x:a", pathname := "/v1/x:a"
        , query := [], headers := [], body := "" } "b" ∧
    ("https://proxy.example/v1/x" : String) ≠ "https://proxy.example/v1/x:a" :=
  ⟨rfl, by decide⟩

/-- C2 (amended): identical method, URL and idempotency key always give the
same cache key, and for two requests agreeing on method and URL the cache keys
agree exactly when the idempotency keys agree; full injectivity over all
inputs fails (see the counterexample) since `:`-joining is ambiguous. -/
theorem cacheKey_eq_iff_of_same_method_url (r₁ r₂ : ProxyRequest) (k₁ k₂ : String)
    (hm : r₁.method = r₂.method) (hu : r₁.url = r₂.url) :
    cacheKey r₁ k₁ = cacheKey r₂ k₂ ↔ k₁ = k₂ := by
  unfold cacheKey
  rw [hm, hu]
  constructor
  · intro h
    exact string_append_left_cancel _ _ _ h
  · intro h
    rw [h]

/-- Witness for the amended C2 at concrete requests and keys. -/
theorem cacheKey_eq_iff_of_same_method_url_witness :
    (cacheKey wReq "a" = cacheKey wReq "b" ↔ ("a" : String) = "b") :=
  cacheKey_eq_iff_of_same_method_url wReq wReq "a" "b" rfl rfl

/-- C3 counterexample: a repeated query parameter is not preserved on the
outbound upstream URL. For the inbound query `a=1&a=2` the forwarding loop
(`searchParams.set` per pair) collapses the pair list to `a=2`. -/
theorem duplicate_query_params_collapse_cx :
    (buildUpstreamRequest
        { method := "POST", url := "https://proxy.example/v1/c?a=1&a=2", pathname := "/v1/c"
        , query := [("a", "1"), ("a", "2")], headers := [], body := "" } "sk").query ≠
      [("a", "1"), ("a", "2")] ∧
    (buildUpstreamRequest
        { method := "POST", url := "https://proxy.example/v1/c?a=1&a=2", pathname := "/v1/c"
        , query := [("a", "1"), ("a", "2")], headers := [], body := "" } "sk").query =
      [("a", "2")] := by
  constructor
  · decide
  · rfl

/-- C3 (amended): the outbound URL is the upstream host plus the original
path, and when the original query has no repeated parameter name the whole
ordered query appears on the outbound request unmodified. (Repeated names
collapse to a single entry holding the last value — see the counterexample.) -/
theorem upstream_url_preserves_path_and_distinct_query (req : ProxyRequest)
    (apiKey : String) (h : (req.query.map Prod.fst).Nodup) :
    outboundUrlBase (buildUpstreamRequest req apiKey) = OPENAI_API_URL ++ req.pathname ∧
    (buildUpstreamRequest req apiKey).path = req.pathname ∧
    (buildUpstreamRequest req apiKey).query = req.query := by
  refine ⟨rfl, rfl, ?_⟩
  exact forwardQuery_nodup req.query h

/-- Witness for the amended C3 at a concrete two-parameter query. -/
theorem upstream_url_preserves_path_and_distinct_query_witness :
    outboundUrlBase (buildUpstreamRequest wQueryReq "sk") = OPENAI_API_URL ++ wQueryReq.pathname ∧
    (buildUpstreamRequest wQueryReq "sk").path = wQueryReq.pathname ∧
    (buildUpstreamRequest wQueryReq "sk").query = wQueryReq.query :=
  upstream_url_preserves_path_and_distinct_query wQueryReq "sk" (by decide)

/-- C4: for a request whose method is not mutating, or which lacks a (truthy)
Idempotency-Key header, the KV store is neither read nor written: lookup
returns a miss with no KV operation, the store writes nothing, and a full
dispatch performs no KV operation at all, whatever the credential and
transport. -/
theorem no_cache_io_when_not_applicable (req : ProxyRequest) (resp : ProxyResponse)
    (kvFetch : String → Except String (Option IdempotencyRecord))
    (h : req.method ∉ nonIdempotentMethods ∨
         hget req.headers "Idempotency-Key" = none ∨
         hget req.headers "Idempotency-Key" = some "") :
    checkIdempotency req kvFetch = (.ok none, []) ∧
    storeIdempotentResponse req resp = [] ∧
    ∀ (apiKeyEnv : Option String) (transport : OutboundRequest → Except String ProxyResponse),
      (workerFetch req apiKeyEnv kvFetch transport).2 = [] := by
  have hc := checkIdempotency_skip req kvFetch h
  refine ⟨hc, storeIdempotentResponse_skip req resp h, ?_⟩
  intro apiKeyEnv transport
  cases apiKeyEnv with
  | none => rfl
  | some apiKey =>
    by_cases ha : apiKey = ""
    · simp only [workerFetch]
      rw [if_pos ha]
    · by_cases ho : req.method = "OPTIONS"
      · simp only [workerFetch]
        rw [if_neg ha, if_pos ho]
      · simp only [workerFetch]
        rw [if_neg ha, if_neg ho, hc]
        show [] ++ storeIdempotentResponse req (handleRequest req apiKey transport) = []
        rw [List.nil_append,
          storeIdempotentResponse_skip req (handleRequest req apiKey transport) h]

/-- Witness for C4: a GET request carrying an Idempotency-Key header still
causes no KV read and no KV write. -/
theorem no_cache_io_when_not_applicable_witness :
    checkIdempotency wGetReq wKv = (.ok none, []) ∧
    storeIdempotentResponse wGetReq wResp = [] ∧
    (workerFetch wGetReq (some "sk") wKv (fun _ => Except.ok wResp)).2 = [] := by
  have h := no_cache_io_when_not_applicable wGetReq wResp wKv (Or.inl (by decide))
  exact ⟨h.1, h.2.1, h.2.2 (some "sk") (fun _ => Except.ok wResp)⟩

/-- C5: the Forwarder synthesizes the 500 JSON error envelope exactly when
the transport fails, and on transport success returns the upstream response
completely unaltered (all statuses, 4xx/5xx included, forwarded verbatim). -/
theorem forwarder_transport_boundary (req : ProxyRequest) (apiKey : String)
    (transport : OutboundRequest → Except String ProxyResponse) :
    (∀ msg, transport (buildUpstreamRequest req apiKey) = .error msg →
        handleRequest req apiKey transport = transportErrorResponse msg ∧
        (transportErrorResponse msg).status = 500 ∧
        (transportErrorResponse msg).body = errorBody msg ∧
        hget (transportErrorResponse msg).headers "Content-Type" = some "application/json") ∧
    (∀ r, transport (buildUpstreamRequest req apiKey) = .ok r →
        handleRequest req apiKey transport = r) := by
  constructor
  · intro msg hmsg
    refine ⟨?_, rfl, rfl, rfl⟩
    unfold handleRequest
    rw [hmsg]
  · intro r hr
    unfold handleRequest
    rw [hr]

/-- Witness for C5: a failing transport yields the synthesized error response,
a succeeding one yields the upstream response itself. -/
theorem forwarder_transport_boundary_witness :
    handleRequest wReq "sk" (fun _ => Except.error "connection refused") =
      transportErrorResponse "connection refused" ∧
    handleRequest wReq "sk" (fun _ => Except.ok wResp) = wResp :=
  ⟨((forwarder_transport_boundary wReq "sk" (fun _ => Except.error "connection refused")).1
      "connection refused" rfl).1,
   (forwarder_transport_boundary wReq "sk" (fun _ => Except.ok wResp)).2 wResp rfl⟩

/-- C6: with no credential configured the dispatcher returns the 500 JSON
configuration error before any other work, for every request — in particular
for OPTIONS, which gets 500 rather than 204 — with no KV operation and no
transport use (the result is the same for every kvFetch and transport). -/
theorem missing_credential_precedes_preflight (req : ProxyRequest)
    (kvFetch : String → Except String (Option IdempotencyRecord))
    (transport : OutboundRequest → Except String ProxyResponse) :
    workerFetch req none kvFetch transport = (.ok configErrorResponse, []) ∧
    configErrorResponse.status = 500 ∧
    configErrorResponse.headers = [("Content-Type", "application/json")] ∧
    configErrorResponse.body =
      "\x7b\"error\":\"OPENAI_API_KEY environment variable is not set\"\x7d" ∧
    configErrorResponse.status ≠ 204 :=
  ⟨rfl, rfl, rfl, rfl, by decide⟩

/-- C7 counterexample: a KV read failure during lookup is not treated as a
cache miss. At a concrete mutating request with an idempotency key and a
rejecting KV store, the dispatcher propagates the failure instead of
returning a (live-forwarded) response — even though the transport would have
succeeded. -/
theorem kv_read_error_propagates_cx :
    (workerFetch wReq (some "sk") (fun _ => Except.error "kv unavailable")
        (fun _ => Except.ok wResp)).1 = Except.error "kv unavailable" := rfl

/-- C7 (amended): a failure of the KV read during lookup of a mutating
request with a non-empty idempotency key propagates uncaught out of the
dispatcher: the caller gets the error, the Forwarder is never invoked, and
the only KV operation is the failed read. -/
theorem kv_read_error_propagates (req : ProxyRequest) (apiKey k e : String)
    (kvFetch : String → Except String (Option IdempotencyRecord))
    (transport : OutboundRequest → Except String ProxyResponse)
    (hm : req.method ∈ nonIdempotentMethods)
    (hk : hget req.headers "Idempotency-Key" = some k)
    (hne : k ≠ "") (ha : apiKey ≠ "")
    (hkv : kvFetch (cacheKey req k) = .error e) :
    workerFetch req (some apiKey) kvFetch transport =
      (.error e, [KVOp.get (cacheKey req k)]) := by
  have hopts := mutating_ne_options req.method hm
  have hc : checkIdempotency req kvFetch = (.error e, [KVOp.get (cacheKey req k)]) := by
    unfold checkIdempotency
    rw [if_pos hm, hk]
    simp only
    rw [if_neg hne, hkv]
  simp only [workerFetch]
  rw [if_neg ha, if_neg hopts, hc]

/-- Witness for the amended C7 at a concrete request and erroring KV store. -/
theorem kv_read_error_propagates_witness :
    workerFetch wReq (some "sk") (fun _ => Except.error "boom")
        (fun _ => Except.ok wResp) =
      (.error "boom", [KVOp.get (cacheKey wReq "req-123")]) :=
  kv_read_error_propagates wReq "sk" "req-123" "boom"
    (fun _ => Except.error "boom") (fun _ => Except.ok wResp)
    (by decide) rfl (by decide) (by decide) rfl

/-- C8 counterexample: the CORS decoration on non-preflight responses is not
exactly the three-header set the claim lists. At a concrete live dispatch the
returned response also carries the CORS header `Access-Control-Max-Age: 86400`
(passed by the dispatcher into `addCORSHeaders`), a name absent from the
claimed exact set. -/
theorem cors_extra_max_age_cx :
    (workerFetch wGetReq (some "sk") (fun _ => Except.ok none)
        (fun _ => Except.ok wResp)).1 =
      Except.ok (addCORSHeaders wResp dispatcherCorsHeaders) ∧
    hget (addCORSHeaders wResp dispatcherCorsHeaders).headers "Access-Control-Max-Age" =
      some "86400" ∧
    ("Access-Control-Max-Age" : String) ∉ defaultCorsHeaders.map Prod.fst :=
  ⟨rfl, rfl, by decide⟩

/-- C8 (amended): every non-preflight response produced with a configured
credential is some response decorated by `addCORSHeaders` with the
dispatcher's CORS object, and that decoration sets exactly the three listed
CORS headers plus `Access-Control-Max-Age: 86400`, keeps status, status text
and body, and preserves every existing header whose name is not one of those
four. -/
theorem cors_decoration_amended (resp : ProxyResponse) :
    hget (addCORSHeaders resp dispatcherCorsHeaders).headers
        "Access-Control-Allow-Origin" = some "*" ∧
    hget (addCORSHeaders resp dispatcherCorsHeaders).headers
        "Access-Control-Allow-Methods" = some "GET, POST, PUT, DELETE, OPTIONS, PATCH" ∧
    hget (addCORSHeaders resp dispatcherCorsHeaders).headers
        "Access-Control-Allow-Headers" = some "Content-Type, Authorization, Idempotency-Key" ∧
    hget (addCORSHeaders resp dispatcherCorsHeaders).headers
        "Access-Control-Max-Age" = some "86400" ∧
    (addCORSHeaders resp dispatcherCorsHeaders).status = resp.status ∧
    (addCORSHeaders resp dispatcherCorsHeaders).statusText = resp.statusText ∧
    (addCORSHeaders resp dispatcherCorsHeaders).body = resp.body ∧
    (∀ n, lowerStr n ∉ dispatcherCorsHeaders.map (fun p => lowerStr p.1) →
        hget (addCORSHeaders resp dispatcherCorsHeaders).headers n = hget resp.headers n) ∧
    (∀ (req : ProxyRequest) (apiKey : String)
        (kvFetch : String → Except String (Option IdempotencyRecord))
        (transport : OutboundRequest → Except String ProxyResponse) (r : ProxyResponse),
        req.method ≠ "OPTIONS" → apiKey ≠ "" →
        (workerFetch req (some apiKey) kvFetch transport).1 = Except.ok r →
        ∃ base, r = addCORSHeaders base dispatcherCorsHeaders) := by
  have hh : (addCORSHeaders resp dispatcherCorsHeaders).headers =
      hset (hset (hset (hset resp.headers "Access-Control-Allow-Origin" "*")
          "Access-Control-Allow-Methods" "GET, POST, PUT, DELETE, OPTIONS, PATCH")
        "Access-Control-Allow-Headers" "Content-Type, Authorization, Idempotency-Key")
        "Access-Control-Max-Age" "86400" := rfl
  refine ⟨?_, ?_, ?_, ?_, rfl, rfl, rfl, ?_, ?_⟩
  · rw [hh, hget_hset, if_neg (by decide), hget_hset, if_neg (by decide),
      hget_hset, if_neg (by decide), hget_hset, if_pos rfl]
  · rw [hh, hget_hset, if_neg (by decide), hget_hset, if_neg (by decide),
      hget_hset, if_pos rfl]
  · rw [hh, hget_hset, if_neg (by decide), hget_hset, if_pos rfl]
  · rw [hh, hget_hset, if_pos rfl]
  · intro n hn
    have hn4 : ¬ lowerStr n = lowerStr "Access-Control-Max-Age" :=
      fun he => hn (by rw [he]; decide)
    have hn3 : ¬ lowerStr n = lowerStr "Access-Control-Allow-Headers" :=
      fun he => hn (by rw [he]; decide)
    have hn2 : ¬ lowerStr n = lowerStr "Access-Control-Allow-Methods" :=
      fun he => hn (by rw [he]; decide)
    have hn1 : ¬ lowerStr n = lowerStr "Access-Control-Allow-Origin" :=
      fun he => hn (by rw [he]; decide)
    rw [hh, hget_hset, if_neg hn4, hget_hset, if_neg hn3, hget_hset, if_neg hn2,
      hget_hset, if_neg hn1]
  · intro req apiKey kvFetch transport r ho ha h1
    simp only [workerFetch] at h1
    rw [if_neg ha, if_neg ho] at h1
    rcases hc : checkIdempotency req kvFetch with ⟨res, ops⟩
    rw [hc] at h1
    cases res with
    | error e => simp at h1
    | ok o =>
      cases o with
      | some cached =>
        simp only at h1
        exact ⟨cached, (Except.ok.inj h1).symm⟩
      | none =>
        simp only at h1
        exact ⟨handleRequest req apiKey transport, (Except.ok.inj h1).symm⟩

/-- Witness for the amended C8: concrete CORS facts on `wResp`, header
preservation for `x-request-id`, and the dispatcher conjunct applied to a
concrete live dispatch. -/
theorem cors_decoration_amended_witness :
    hget (addCORSHeaders wResp dispatcherCorsHeaders).headers
        "Access-Control-Max-Age" = some "86400" ∧
    hget (addCORSHeaders wResp dispatcherCorsHeaders).headers "x-request-id" =
      hget wResp.headers "x-request-id" ∧
    (∃ base, addCORSHeaders wResp dispatcherCorsHeaders =
        addCORSHeaders base dispatcherCorsHeaders) := by
  have h := cors_decoration_amended wResp
  exact ⟨h.2.2.2.1,
    h.2.2.2.2.2.2.2.1 "x-request-id" (by decide),
    h.2.2.2.2.2.2.2.2 wGetReq "sk" (fun _ => Except.ok none) (fun _ => Except.ok wResp)
      (addCORSHeaders wResp dispatcherCorsHeaders) (by decide) (by decide) rfl⟩

/-- C9: the outbound request's Authorization header is exactly
`Bearer <credential>`, whatever the client sent (overwrite, not merge), and
every header with a different name is passed through unchanged. -/
theorem authorization_overwritten (req : ProxyRequest) (apiKey : String) :
    hget (buildUpstreamRequest req apiKey).headers "Authorization" =
      some ("Bearer " ++ apiKey) ∧
    ∀ n, lowerStr n ≠ lowerStr "Authorization" →
      hget (buildUpstreamRequest req apiKey).headers n = hget req.headers n := by
  constructor
  · show hget (hset req.headers "Authorization" ("Bearer " ++ apiKey)) "Authorization" = _
    rw [hget_hset, if_pos rfl]
  · intro n hn
    show hget (hset req.headers "Authorization" ("Bearer " ++ apiKey)) n = _
    rw [hget_hset, if_neg hn]

/-- Witness for C9: a request already carrying a client Authorization header
has it replaced by the credential, while its Accept header survives. -/
theorem authorization_overwritten_witness :
    hget (buildUpstreamRequest wAuthReq "sk").headers "Authorization" =
      some ("Bearer " ++ "sk") ∧
    hget (buildUpstreamRequest wAuthReq "sk").headers "Accept" =
      hget wAuthReq.headers "Accept" := by
  have h := authorization_overwritten wAuthReq "sk"
  exact ⟨h.1, h.2 "Accept" (by decide)⟩

/-- C10: a present-but-empty credential fails closed exactly like a missing
one: the falsiness test rejects the empty string, the dispatcher returns the
500 configuration error for every request, performs no KV operation and never
invokes the transport, so `Bearer ` with an empty credential is never sent. -/
theorem empty_credential_fails_closed (req : ProxyRequest)
    (kvFetch : String → Except String (Option IdempotencyRecord))
    (transport : OutboundRequest → Except String ProxyResponse) :
    workerFetch req (some "") kvFetch transport = (.ok configErrorResponse, []) ∧
    workerFetch req (some "") kvFetch transport = workerFetch req none kvFetch transport ∧
    configErrorResponse.status = 500 :=
  ⟨rfl, rfl, rfl⟩

end Proxy
